import Mathlib

/-!
Verification of the UTF-8 to UTF-16 conversion routine `Utf16FromUtf8`
from `TestUTF8Console/UnicodeConv.hpp`.

The C++ function converts a `std::string` holding UTF-8 bytes into a
`std::wstring` of UTF-16 code units, by the two-phase measure-then-fill
pattern around the Win32 primitive `MultiByteToWideChar` called with
`CP_UTF8` and `MB_ERR_INVALID_CHARS`.  Failures are signalled by throwing:
`std::overflow_error` for inputs longer than `INT_MAX`, and
`Utf16FromUtf8ConversionError` (carrying a message and the `GetLastError()`
code) for failures of either `MultiByteToWideChar` call.

Bytes and UTF-16 code units are embedded as `Nat` (byte values < 0x100,
code-unit values < 0x10000); `DWORD` error codes are `Nat`.  A thrown
exception is embedded as the `error` branch of `Except`.

The behaviour of the external Win32 primitive is a parameter
(`WideCharApi`), so that the error-classification logic of the function can
be verified for every outcome the primitive may report; the concrete model
`winMB2WC` instantiates it with a strict UTF-8 decoder reflecting the
documented behaviour of `MultiByteToWideChar` under `MB_ERR_INVALID_CHARS`.
-/

/-- The Win32 error code `ERROR_NO_UNICODE_TRANSLATION` (1113). -/
def ERROR_NO_UNICODE_TRANSLATION : Nat := 1113

/-- `std::numeric_limits<int>::max()` on Windows: `2^31 - 1`. -/
def INT_MAX : Nat := 2 ^ 31 - 1

/-- Message of the `std::overflow_error` thrown for oversize input
(UnicodeConv.hpp line 85). -/
def msgTooLong : String :=
  "Input string too long: size_t-length doesn't fit into int."

/-- Message used when `GetLastError()` is `ERROR_NO_UNICODE_TRANSLATION`
(UnicodeConv.hpp lines 105 and 131). -/
def msgInvalidUtf8 : String :=
  "Invalid UTF-8 sequence found in input string."

/-- Message of the measurement-phase failure for other error codes
(UnicodeConv.hpp lines 107-108). -/
def msgMeasureFailed : String :=
  "Cannot get result string length when converting from UTF-8 to UTF-16 (MultiByteToWideChar failed)."

/-- Message of the fill-phase failure for other error codes
(UnicodeConv.hpp lines 133-134). -/
def msgConvertFailed : String :=
  "Cannot convert from UTF-8 to UTF-16 (MultiByteToWideChar failed)."

/-- The exception class `Utf16FromUtf8ConversionError` of UnicodeConv.hpp:
an error message together with the `GetLastError()` code. -/
structure Utf16FromUtf8ConversionError where
  message : String
  errorCode : Nat
deriving DecidableEq, Repr

/-- The exceptions `Utf16FromUtf8` may throw: `std::overflow_error`
(no Win32 error code) or `Utf16FromUtf8ConversionError`. -/
inductive ConvException where
  | overflowError (message : String)
  | conversionError (e : Utf16FromUtf8ConversionError)
deriving DecidableEq, Repr

/-- The spec's four-way error taxonomy. -/
inductive ErrorKind where
  | InputTooLarge
  | InvalidUtf8Sequence
  | MeasurementFailed
  | ConversionFailed
deriving DecidableEq, Repr

/-- The platform diagnostic code carried by an exception: the `ErrorCode()`
accessor of `Utf16FromUtf8ConversionError`; a `std::overflow_error` carries
none. -/
def ConvException.diagCode : ConvException → Option Nat
  | .overflowError _ => none
  | .conversionError e => some e.errorCode

/-- The spec's `ErrorKind` of a thrown exception, read off from the
exception type and the message chosen at the throw site. -/
def ConvException.errorKind : ConvException → ErrorKind
  | .overflowError _ => .InputTooLarge
  | .conversionError e =>
    if e.message = msgInvalidUtf8 then .InvalidUtf8Sequence
    else if e.message = msgMeasureFailed then .MeasurementFailed
    else .ConversionFailed

/-- Behaviour of the external `MultiByteToWideChar` primitive, as observed
by `Utf16FromUtf8`: the return value of the size-query call, the
`GetLastError()` code after it, the return value of the fill call for a
given buffer size, the `GetLastError()` code after it, and the buffer
contents the fill call produces. -/
structure WideCharApi where
  measure : List Nat → Nat
  measureLastError : List Nat → Nat
  fill : List Nat → Nat → Nat
  fillLastError : List Nat → Nat → Nat
  fillBuffer : List Nat → Nat → List Nat

/-- The function `Utf16FromUtf8` of UnicodeConv.hpp (lines 62-140),
parameterized over the behaviour of the `MultiByteToWideChar` primitive.
Mirrors the source control flow: empty check, `INT_MAX` length check,
measurement call with zero-test and error classification, fill call with
zero-test and error classification, success. -/
def Utf16FromUtf8Gen (api : WideCharApi) (utf8 : List Nat) :
    Except ConvException (List Nat) :=
  if utf8.length = 0 then
    .ok []
  else if INT_MAX < utf8.length then
    .error (.overflowError msgTooLong)
  else
    let utf16Length := api.measure utf8
    if utf16Length = 0 then
      let error := api.measureLastError utf8
      .error (.conversionError
        ⟨if error = ERROR_NO_UNICODE_TRANSLATION then msgInvalidUtf8
          else msgMeasureFailed, error⟩)
    else
      let result := api.fill utf8 utf16Length
      if result = 0 then
        let error := api.fillLastError utf8 utf16Length
        .error (.conversionError
          ⟨if error = ERROR_NO_UNICODE_TRANSLATION then msgInvalidUtf8
            else msgConvertFailed, error⟩)
      else
        .ok (api.fillBuffer utf8 utf16Length)

/-- A UTF-8 continuation byte: `0x80..0xBF`. -/
def contByte (b : Nat) : Bool := 0x80 ≤ b && b ≤ 0xBF

/-- Valid first continuation byte of a 3-byte sequence led by `b0`
(RFC 3629 strict table: `E0` needs `A0..BF`, `ED` needs `80..9F` to
exclude surrogates, otherwise `80..BF`). -/
def cont3First (b0 b1 : Nat) : Bool :=
  if b0 = 0xE0 then 0xA0 ≤ b1 && b1 ≤ 0xBF
  else if b0 = 0xED then 0x80 ≤ b1 && b1 ≤ 0x9F
  else contByte b1

/-- Valid first continuation byte of a 4-byte sequence led by `b0`
(RFC 3629 strict table: `F0` needs `90..BF`, `F4` needs `80..8F`,
otherwise `80..BF`). -/
def cont4First (b0 b1 : Nat) : Bool :=
  if b0 = 0xF0 then 0x90 ≤ b1 && b1 ≤ 0xBF
  else if b0 = 0xF4 then 0x80 ≤ b1 && b1 ≤ 0x8F
  else contByte b1

/-- Modelled from the spec: strict UTF-8 decoding to Unicode scalar values,
as performed by the external Win32 primitive `MultiByteToWideChar` with
`CP_UTF8` and `MB_ERR_INVALID_CHARS` (not part of this repository's
sources).  Rejects invalid lead bytes, truncated sequences, overlong
encodings and surrogate code points; `none` models the primitive reporting
`ERROR_NO_UNICODE_TRANSLATION`. -/
def decodeUtf8Fuel : Nat → List Nat → Option (List Nat)
  | _, [] => some []
  | 0, _ :: _ => none
  | fuel + 1, b0 :: t0 =>
    if b0 < 0x80 then
      (decodeUtf8Fuel fuel t0).map (b0 :: ·)
    else if b0 < 0xC2 then
      none
    else if b0 ≤ 0xDF then
      match t0 with
      | b1 :: t1 =>
        if contByte b1 then
          (decodeUtf8Fuel fuel t1).map (((b0 % 0x20) * 0x40 + b1 % 0x40) :: ·)
        else none
      | [] => none
    else if b0 ≤ 0xEF then
      match t0 with
      | b1 :: b2 :: t2 =>
        if cont3First b0 b1 && contByte b2 then
          (decodeUtf8Fuel fuel t2).map
            (((b0 % 0x10) * 0x1000 + (b1 % 0x40) * 0x40 + b2 % 0x40) :: ·)
        else none
      | _ => none
    else if b0 ≤ 0xF4 then
      match t0 with
      | b1 :: b2 :: b3 :: t3 =>
        if cont4First b0 b1 && contByte b2 && contByte b3 then
          (decodeUtf8Fuel fuel t3).map
            (((b0 % 8) * 0x40000 + (b1 % 0x40) * 0x1000 +
              (b2 % 0x40) * 0x40 + b3 % 0x40) :: ·)
        else none
      | _ => none
    else none

/-- Strict UTF-8 decoding of a whole byte list.  The fuel of
`decodeUtf8Fuel` counts decoded code points; every code point consumes at
least one input byte, so the input length is always enough fuel. -/
def decodeUtf8 (l : List Nat) : Option (List Nat) :=
  decodeUtf8Fuel l.length l

/-- UTF-16 encoding of one Unicode scalar value: itself if in the BMP,
else a surrogate pair. -/
def utf16EncodeChar (c : Nat) : List Nat :=
  if c < 0x10000 then [c]
  else [0xD800 + (c - 0x10000) / 0x400, 0xDC00 + (c - 0x10000) % 0x400]

/-- Modelled from the spec: the UTF-16 code-unit sequence produced by the
external primitive for a valid UTF-8 input: strict decode, then UTF-16
encode each scalar value. -/
def utf8ToUtf16Units (bytes : List Nat) : Option (List Nat) :=
  (decodeUtf8 bytes).map fun cs => (cs.map utf16EncodeChar).flatten

/-- Modelled from the spec: the Win32 `MultiByteToWideChar` primitive with
`CP_UTF8` and `MB_ERR_INVALID_CHARS` (external to this repository).  Both
the size query and the fill call return the number of UTF-16 code units of
the strict conversion, or `0` with `GetLastError()` reporting
`ERROR_NO_UNICODE_TRANSLATION` when the input is not valid UTF-8; the fill
call writes the converted code units into the buffer. -/
def winMB2WC : WideCharApi :=
  ⟨fun utf8 => ((utf8ToUtf16Units utf8).map List.length).getD 0,
   fun _ => ERROR_NO_UNICODE_TRANSLATION,
   fun utf8 _ => ((utf8ToUtf16Units utf8).map List.length).getD 0,
   fun _ _ => ERROR_NO_UNICODE_TRANSLATION,
   fun utf8 _ => (utf8ToUtf16Units utf8).getD []⟩

/-- The concrete `Utf16FromUtf8` of UnicodeConv.hpp: the generic function
instantiated with the model of the Win32 primitive. -/
def Utf16FromUtf8 (utf8 : List Nat) : Except ConvException (List Nat) :=
  Utf16FromUtf8Gen winMB2WC utf8

/-! ## Helper lemmas -/

lemma length_ne_zero_of_ne_nil {l : List Nat} (h : l ≠ []) : ¬ l.length = 0 := by
  simpa [List.length_eq_zero] using h

/-- Oversize input reaches the `INT_MAX` guard and throws
`std::overflow_error`, whatever the primitive would do. -/
lemma too_large_eval (api : WideCharApi) (utf8 : List Nat)
    (h : INT_MAX < utf8.length) :
    Utf16FromUtf8Gen api utf8 = .error (.overflowError msgTooLong) := by
  have h0 : ¬ utf8.length = 0 :=
    Nat.pos_iff_ne_zero.mp (lt_of_le_of_lt (Nat.zero_le _) h)
  simp [Utf16FromUtf8Gen, h0, h]

lemma decodeUtf8Fuel_cons_ascii (fuel b : Nat) (t : List Nat) (hb : b < 0x80) :
    decodeUtf8Fuel (fuel + 1) (b :: t) = (decodeUtf8Fuel fuel t).map (b :: ·) := by
  simp only [decodeUtf8Fuel]
  rw [if_pos hb]

lemma decodeUtf8Fuel_ascii (fuel : Nat) (l : List Nat) (hlen : l.length ≤ fuel)
    (h : ∀ b ∈ l, b < 0x80) : decodeUtf8Fuel fuel l = some l := by
  induction fuel generalizing l with
  | zero =>
    cases l with
    | nil => rfl
    | cons b t => simp at hlen
  | succ f ih =>
    cases l with
    | nil => rfl
    | cons b t =>
      have hb : b < 0x80 := h b (List.mem_cons_self b t)
      have ht : ∀ x ∈ t, x < 0x80 := fun x hx => h x (List.mem_cons_of_mem b hx)
      have hlt : t.length ≤ f := by simpa using hlen
      rw [decodeUtf8Fuel_cons_ascii f b t hb, ih t hlt ht]
      rfl

lemma decodeUtf8_ascii (l : List Nat) (h : ∀ b ∈ l, b < 0x80) :
    decodeUtf8 l = some l :=
  decodeUtf8Fuel_ascii l.length l (le_refl _) h

lemma utf16Flatten_ascii (l : List Nat) (h : ∀ b ∈ l, b < 0x80) :
    (l.map utf16EncodeChar).flatten = l := by
  induction l with
  | nil => rfl
  | cons b t ih =>
    have hb : b < 0x10000 :=
      lt_trans (h b (List.mem_cons_self b t)) (by decide)
    have ht := ih fun x hx => h x (List.mem_cons_of_mem b hx)
    simp [utf16EncodeChar, hb, ht]

lemma utf8ToUtf16Units_ascii (l : List Nat) (h : ∀ b ∈ l, b < 0x80) :
    utf8ToUtf16Units l = some l := by
  simp [utf8ToUtf16Units, decodeUtf8_ascii l h, utf16Flatten_ascii l h]

/-- A successful return of the concrete `Utf16FromUtf8` is exactly the
strict conversion of the whole input. -/
lemma ok_sound (utf8 u : List Nat) (h : Utf16FromUtf8 utf8 = .ok u) :
    utf8ToUtf16Units utf8 = some u := by
  unfold Utf16FromUtf8 Utf16FromUtf8Gen at h
  by_cases h0 : utf8.length = 0
  · rw [List.length_eq_zero] at h0
    subst h0
    simp at h
    subst h
    rfl
  · by_cases h1 : INT_MAX < utf8.length
    · simp [h0, h1] at h
    · cases hd : utf8ToUtf16Units utf8 with
      | none => simp [h0, h1, winMB2WC, hd] at h
      | some units =>
        by_cases hz : units.length = 0
        · simp [h0, h1, winMB2WC, hd, hz] at h
        · simp [h0, h1, winMB2WC, hd, hz] at h
          rw [h]

lemma msgMeasure_ne_invalid : msgMeasureFailed ≠ msgInvalidUtf8 := by decide

lemma msgConvert_ne_invalid : msgConvertFailed ≠ msgInvalidUtf8 := by decide

lemma msgConvert_ne_measure : msgConvertFailed ≠ msgMeasureFailed := by decide

/-! ## Witness instantiations of the external primitive -/

/-- A primitive whose size query returns zero with an error code other
than `ERROR_NO_UNICODE_TRANSLATION` (here `8`, out of memory). -/
def apiMeasureFails : WideCharApi :=
  ⟨fun _ => 0, fun _ => 8, fun _ _ => 0, fun _ _ => 0, fun _ _ => []⟩

/-- A primitive whose size query succeeds but whose fill call returns
zero with an error code other than `ERROR_NO_UNICODE_TRANSLATION`. -/
def apiFillFails : WideCharApi :=
  ⟨fun _ => 2, fun _ => 0, fun _ _ => 0, fun _ _ => 8, fun _ _ => []⟩

/-! ## The claims -/

/-- Claim C1: for every non-empty input reaching the measurement phase, if
the size query reports zero required UTF-16 code units, `Utf16FromUtf8`
throws: `InvalidUtf8Sequence` when `GetLastError()` is
`ERROR_NO_UNICODE_TRANSLATION`, `MeasurementFailed` for any other code,
and the error value carries the diagnostic code in both cases. -/
theorem measurement_failure_classified (api : WideCharApi) (utf8 : List Nat)
    (hne : utf8 ≠ []) (hlen : utf8.length ≤ INT_MAX)
    (hm : api.measure utf8 = 0) :
    ∃ e, Utf16FromUtf8Gen api utf8 = .error e ∧
      e.errorKind =
        (if api.measureLastError utf8 = ERROR_NO_UNICODE_TRANSLATION
          then ErrorKind.InvalidUtf8Sequence else ErrorKind.MeasurementFailed) ∧
      e.diagCode = some (api.measureLastError utf8) := by
  have h0 : ¬ utf8.length = 0 := length_ne_zero_of_ne_nil hne
  have h1 : ¬ INT_MAX < utf8.length := Nat.not_lt.mpr hlen
  refine ⟨.conversionError
    ⟨if api.measureLastError utf8 = ERROR_NO_UNICODE_TRANSLATION
      then msgInvalidUtf8 else msgMeasureFailed,
      api.measureLastError utf8⟩, ?_, ?_, ?_⟩
  · simp [Utf16FromUtf8Gen, h0, h1, hm]
  · by_cases he : api.measureLastError utf8 = ERROR_NO_UNICODE_TRANSLATION <;>
      simp [ConvException.errorKind, he, msgMeasure_ne_invalid]
  · rfl

/-- Witness for C1: a primitive reporting zero size with diagnostic `8`
makes `Utf16FromUtf8` throw with that code. -/
theorem measurement_failure_classified_witness :
    ∃ e, Utf16FromUtf8Gen apiMeasureFails [0x41] = .error e ∧
      e.errorKind =
        (if apiMeasureFails.measureLastError [0x41] = ERROR_NO_UNICODE_TRANSLATION
          then ErrorKind.InvalidUtf8Sequence else ErrorKind.MeasurementFailed) ∧
      e.diagCode = some (apiMeasureFails.measureLastError [0x41]) :=
  measurement_failure_classified apiMeasureFails [0x41]
    (by decide) (by decide) rfl

/-- Claim C2: `Utf16FromUtf8` rejects the invalid lead byte `0xFF` and the
truncated 3-byte sequence `0xE6 0x97` with `InvalidUtf8Sequence`, and
yields no success value for either. -/
theorem invalid_sequence_rejection :
    (∃ e, Utf16FromUtf8 [0xFF] = .error e ∧
      e.errorKind = ErrorKind.InvalidUtf8Sequence) ∧
    (∃ e, Utf16FromUtf8 [0xE6, 0x97] = .error e ∧
      e.errorKind = ErrorKind.InvalidUtf8Sequence) ∧
    (∀ u, Utf16FromUtf8 [0xFF] ≠ .ok u) ∧
    (∀ u, Utf16FromUtf8 [0xE6, 0x97] ≠ .ok u) := by
  have h1 : Utf16FromUtf8 [0xFF] =
      .error (.conversionError ⟨msgInvalidUtf8, ERROR_NO_UNICODE_TRANSLATION⟩) := rfl
  have h2 : Utf16FromUtf8 [0xE6, 0x97] =
      .error (.conversionError ⟨msgInvalidUtf8, ERROR_NO_UNICODE_TRANSLATION⟩) := rfl
  refine ⟨⟨_, h1, ?_⟩, ⟨_, h2, ?_⟩, ?_, ?_⟩ <;>
    simp [h1, h2, ConvException.errorKind]

/-- Claim C3: oversize input (length above `INT_MAX`) throws the overflow
error regardless of the primitive's behaviour (so no decode is attempted),
classified `InputTooLarge`, with no diagnostic code attached. -/
theorem input_too_large_law (api : WideCharApi) (utf8 : List Nat)
    (h : INT_MAX < utf8.length) :
    Utf16FromUtf8Gen api utf8 = .error (.overflowError msgTooLong) ∧
    (ConvException.overflowError msgTooLong).errorKind = ErrorKind.InputTooLarge ∧
    (ConvException.overflowError msgTooLong).diagCode = none :=
  ⟨too_large_eval api utf8 h, rfl, rfl⟩

/-- Witness for C3: a `2^31`-byte input overflows the `int` length. -/
theorem input_too_large_law_witness :
    Utf16FromUtf8Gen winMB2WC (List.replicate (2 ^ 31) 0) =
      .error (.overflowError msgTooLong) ∧
    (ConvException.overflowError msgTooLong).errorKind = ErrorKind.InputTooLarge ∧
    (ConvException.overflowError msgTooLong).diagCode = none :=
  input_too_large_law winMB2WC (List.replicate (2 ^ 31) 0)
    (by rw [List.length_replicate]; decide)

/-- Claim C4: empty input returns the empty UTF-16 string, never an error,
whatever the primitive would do (it is not invoked); in particular this
holds for the concrete `Utf16FromUtf8`. -/
theorem empty_input_law (api : WideCharApi) :
    Utf16FromUtf8Gen api [] = .ok [] ∧ Utf16FromUtf8 [] = .ok [] :=
  ⟨rfl, rfl⟩

/-- Counterexample to C5 as stated: an all-ASCII input of `2^31` bytes
satisfies the claim's hypotheses (non-empty, all bytes below `0x80`) yet
`Utf16FromUtf8` does not return it converted: the length guard throws
first. -/
theorem ascii_oversize_counterexample :
    (∀ b ∈ List.replicate (2 ^ 31) 0x41, b < 0x80) ∧
    List.replicate (2 ^ 31) (0x41 : Nat) ≠ [] ∧
    Utf16FromUtf8 (List.replicate (2 ^ 31) 0x41) ≠
      .ok (List.replicate (2 ^ 31) 0x41) := by
  refine ⟨?_, ?_, ?_⟩
  · intro b hb
    rw [List.eq_of_mem_replicate hb]
    decide
  · rw [Ne, List.replicate_eq_nil_iff]
    decide
  · have h := too_large_eval winMB2WC (List.replicate (2 ^ 31) 0x41)
      (by rw [List.length_replicate]; decide)
    intro hc
    unfold Utf16FromUtf8 at hc
    rw [h] at hc
    exact Except.noConfusion hc

/-- Claim C5 (amended with the length bound): every non-empty all-ASCII
input of length at most `INT_MAX` converts successfully to the identical
sequence of zero-extended code units. -/
theorem ascii_identity (utf8 : List Nat) (hne : utf8 ≠ [])
    (hlen : utf8.length ≤ INT_MAX) (hascii : ∀ b ∈ utf8, b < 0x80) :
    Utf16FromUtf8 utf8 = .ok utf8 := by
  have h0 : ¬ utf8.length = 0 := length_ne_zero_of_ne_nil hne
  have h1 : ¬ INT_MAX < utf8.length := Nat.not_lt.mpr hlen
  have hu : utf8ToUtf16Units utf8 = some utf8 := utf8ToUtf16Units_ascii utf8 hascii
  simp [Utf16FromUtf8, Utf16FromUtf8Gen, winMB2WC, h0, h1, hu]

/-- Witness for the amended C5 at the two-byte ASCII input `Hi`. -/
theorem ascii_identity_witness :
    Utf16FromUtf8 [0x48, 0x69] = .ok [0x48, 0x69] :=
  ascii_identity [0x48, 0x69] (by decide) (by decide) (by decide)

/-- Claim C6: the UTF-8 bytes of the two kanji of Japan convert to exactly
the two UTF-16 code units `0x65E5` and `0x672C`. -/
theorem nihon_multibyte :
    Utf16FromUtf8 [0xE6, 0x97, 0xA5, 0xE6, 0x9C, 0xAC] = .ok [0x65E5, 0x672C] :=
  rfl

/-- Claim C7: if the measurement phase succeeds and the fill phase reports
failure, the classification matches the measurement phase except that
`ConversionFailed` replaces `MeasurementFailed`, and the diagnostic code is
carried. -/
theorem fill_failure_classified (api : WideCharApi) (utf8 : List Nat)
    (hne : utf8 ≠ []) (hlen : utf8.length ≤ INT_MAX)
    (hm : api.measure utf8 ≠ 0)
    (hf : api.fill utf8 (api.measure utf8) = 0) :
    ∃ e, Utf16FromUtf8Gen api utf8 = .error e ∧
      e.errorKind =
        (if api.fillLastError utf8 (api.measure utf8) = ERROR_NO_UNICODE_TRANSLATION
          then ErrorKind.InvalidUtf8Sequence else ErrorKind.ConversionFailed) ∧
      e.diagCode = some (api.fillLastError utf8 (api.measure utf8)) := by
  have h0 : ¬ utf8.length = 0 := length_ne_zero_of_ne_nil hne
  have h1 : ¬ INT_MAX < utf8.length := Nat.not_lt.mpr hlen
  refine ⟨.conversionError
    ⟨if api.fillLastError utf8 (api.measure utf8) = ERROR_NO_UNICODE_TRANSLATION
      then msgInvalidUtf8 else msgConvertFailed,
      api.fillLastError utf8 (api.measure utf8)⟩, ?_, ?_, ?_⟩
  · simp [Utf16FromUtf8Gen, h0, h1, hm, hf]
  · by_cases he : api.fillLastError utf8 (api.measure utf8) = ERROR_NO_UNICODE_TRANSLATION <;>
      simp [ConvException.errorKind, he, msgConvert_ne_invalid, msgConvert_ne_measure]
  · rfl

/-- Witness for C7: a primitive measuring two units whose fill call fails
with diagnostic `8`. -/
theorem fill_failure_classified_witness :
    ∃ e, Utf16FromUtf8Gen apiFillFails [0x41] = .error e ∧
      e.errorKind =
        (if apiFillFails.fillLastError [0x41] (apiFillFails.measure [0x41]) = ERROR_NO_UNICODE_TRANSLATION
          then ErrorKind.InvalidUtf8Sequence else ErrorKind.ConversionFailed) ∧
      e.diagCode = some (apiFillFails.fillLastError [0x41] (apiFillFails.measure [0x41])) :=
  fill_failure_classified apiFillFails [0x41]
    (by decide) (by decide) (by decide) rfl

/-- Claim C8: `Utf16FromUtf8` either succeeds with the exact strict
conversion of the whole input (never observable alongside an error), or
fails with an error (never observable alongside a success value); the two
outcomes are mutually exclusive and exhaustive. -/
theorem success_error_exclusive (utf8 : List Nat) :
    (∃ u, Utf16FromUtf8 utf8 = .ok u ∧ utf8ToUtf16Units utf8 = some u ∧
      ∀ e, Utf16FromUtf8 utf8 ≠ .error e) ∨
    ((∃ e, Utf16FromUtf8 utf8 = .error e) ∧
      ∀ u, Utf16FromUtf8 utf8 ≠ .ok u) := by
  cases h : Utf16FromUtf8 utf8 with
  | ok u => exact Or.inl ⟨u, rfl, ok_sound utf8 u h, by simp⟩
  | error e => exact Or.inr ⟨⟨e, rfl⟩, by simp⟩

/-- Claim C9: `Utf16FromUtf8` is deterministic: identical inputs yield
identical outcomes. -/
theorem convert_deterministic (u1 u2 : List Nat) (h : u1 = u2) :
    Utf16FromUtf8 u1 = Utf16FromUtf8 u2 :=
  congrArg Utf16FromUtf8 h

/-- Witness for C9 at a concrete input. -/
theorem convert_deterministic_witness :
    Utf16FromUtf8 [0xE6, 0x97] = Utf16FromUtf8 [0xE6, 0x97] :=
  convert_deterministic [0xE6, 0x97] [0xE6, 0x97] rfl

/-- Claim C10: every failure of `Utf16FromUtf8` on oversize input is the
`std::overflow_error` (a type distinct from `Utf16FromUtf8ConversionError`,
with no Win32 code), and every other failure is a
`Utf16FromUtf8ConversionError` exposing its diagnostic code. -/
theorem overflow_error_distinct (utf8 : List Nat) (e : ConvException)
    (he : Utf16FromUtf8 utf8 = .error e) :
    (INT_MAX < utf8.length ∧ e = .overflowError msgTooLong ∧ e.diagCode = none) ∨
    (utf8.length ≤ INT_MAX ∧
      ∃ err : Utf16FromUtf8ConversionError, e = .conversionError err ∧
        e.diagCode = some err.errorCode) := by
  by_cases h1 : INT_MAX < utf8.length
  · left
    have h := too_large_eval winMB2WC utf8 h1
    unfold Utf16FromUtf8 at he
    rw [h] at he
    injection he with he2
    subst he2
    exact ⟨h1, rfl, rfl⟩
  · right
    refine ⟨Nat.not_lt.mp h1, ?_⟩
    unfold Utf16FromUtf8 Utf16FromUtf8Gen at he
    by_cases h0 : utf8.length = 0
    · simp [h0] at he
    · simp [h0, h1] at he
      split at he
      · injection he with he2
        subst he2
        exact ⟨_, rfl, rfl⟩
      · split at he
        · injection he with he2
          subst he2
          exact ⟨_, rfl, rfl⟩
        · simp at he

/-- Witness for C10 at the invalid one-byte input `0xFF`. -/
theorem overflow_error_distinct_witness :
    (INT_MAX < ([0xFF] : List Nat).length ∧
      ConvException.conversionError ⟨msgInvalidUtf8, ERROR_NO_UNICODE_TRANSLATION⟩ =
        .overflowError msgTooLong ∧
      (ConvException.conversionError
        ⟨msgInvalidUtf8, ERROR_NO_UNICODE_TRANSLATION⟩).diagCode = none) ∨
    (([0xFF] : List Nat).length ≤ INT_MAX ∧
      ∃ err : Utf16FromUtf8ConversionError,
        ConvException.conversionError ⟨msgInvalidUtf8, ERROR_NO_UNICODE_TRANSLATION⟩ =
          .conversionError err ∧
        (ConvException.conversionError
          ⟨msgInvalidUtf8, ERROR_NO_UNICODE_TRANSLATION⟩).diagCode = some err.errorCode) :=
  overflow_error_distinct [0xFF]
    (.conversionError ⟨msgInvalidUtf8, ERROR_NO_UNICODE_TRANSLATION⟩) rfl
